import Mathlib

/-!
Shallow embedding of `pixel-to-coordinate/pixel2coord.py` (repository
`plant-detection`), a Python 2 script that converts pixel locations of
detected calibration markers into machine coordinates.

Modelling conventions:

* Pixel coordinates and radii are exact rationals (`ℚ`); the Python code
  uses IEEE doubles.  Angles are real numbers (`ℝ`) because the source
  applies `np.tan` to the slope.
* The numpy array `object_pixel_locations` is built by `findobjects` as
  `np.append(np.array(image.shape[:2][::-1]) / 2, 0)` — a one-dimensional
  array `[cx, cy, 0]` — and then `np.vstack`ed with one row `[cx, cy, r]`
  per contour.  Its shape therefore depends on the data: with zero
  contours it stays one-dimensional, otherwise it is two-dimensional with
  one row per object.  `PixelLocationArray` mirrors this, because the
  consumers behave completely differently on the two shapes: on the 1-D
  array, `len(...)` is 3 (it counts scalars), row indexing like
  `locations[1][0]` or `locations[0, :2]` raises (IndexError / TypeError
  on unpacking a scalar), and those raised exceptions are modelled as
  `Except.error NumpyError.scalarIndex`.
* The OpenCV collaborators (`cv2.findContours` + `cv2.minEnclosingCircle`,
  `cv2.warpAffine`, the HSV masking in `process`) are external library
  calls, modelled as opaque parameters: `contoursOf` yields the enclosing
  circles contour extraction produces for an image, `shape` yields the
  numpy shape `(rows, cols)`, and `rotateimage` is the rigid rotation.
* Module-level configuration constants of the script
  (`image_bot_origin_location`, `bot_coordinates`, ...) are kept as
  definitions with their source values; the functions that read them
  (`p2c`) additionally take them as explicit parameters so that claims
  quantifying over configurations can be stated.
* The script is Python 2 (`print` statements), so
  `np.array(image.shape[:2][::-1]) / 2` on an integer array performs
  integer floor division; `centerObject` uses `Nat` floor division
  accordingly.
* In Lean, `ℚ` division by zero yields `0`; where the Python code would
  produce `inf`/`nan` (e.g. `calibrate` on zero marker separation) the
  embedding still returns a value, and the theorems about degenerate
  geometry only use the fact that the function returns instead of
  failing.
-/

namespace PlantDetection

/-- One row `[cx, cy, radius]` of the `object_pixel_locations` numpy
array. -/
structure PixelObject where
  x : ℚ
  y : ℚ
  radius : ℚ
deriving DecidableEq

/-- Default row used where the embedding indexes with `getD` under a
length hypothesis that makes the default unreachable. -/
def defaultObject : PixelObject := ⟨0, 0, 0⟩

/-- The exceptions numpy raises on shape-mismatched indexing (IndexError
on an out-of-range row or a subscripted scalar, TypeError on unpacking a
scalar); the distinctions between the concrete Python exception classes
are irrelevant to the claims, so one error value models them all. -/
inductive NumpyError where
  | scalarIndex : NumpyError
deriving DecidableEq

/-- The `object_pixel_locations` array: one-dimensional `[cx, cy, 0]`
straight from `np.append` when no contour was ever stacked, otherwise
two-dimensional with one row per object (center pseudo-object first). -/
inductive PixelLocationArray where
  | oneD : PixelObject → PixelLocationArray
  | twoD : List PixelObject → PixelLocationArray
deriving DecidableEq

/-- The ordered sequence of objects an array denotes (the
PixelLocationSet abstraction of the specification): the 1-D array holds
exactly the center pseudo-object, a 2-D array holds its rows. -/
def entries : PixelLocationArray → List PixelObject
  | .oneD row => [row]
  | .twoD rows => rows

/-- Source line 7: `image_bot_origin_location = [0, 1]`. -/
def image_bot_origin_location : ℤ × ℤ := (0, 1)

/-- Source line 8: `calibration_circle_diameter = 153`. -/
def calibration_circle_diameter : ℚ := 153

/-- Source line 9: `calibration_circle_separation = 500`. -/
def calibration_circle_separation : ℚ := 500

/-- Source line 10: `bot_coordinates = [200, 400]` (returned by
`getcoordinates`). -/
def bot_coordinates : ℚ × ℚ := (200, 400)

/-- Source line 11: `camera_offset_coordinates = [300, 100]`. -/
def camera_offset_coordinates : ℚ × ℚ := (300, 100)

/-- The local `threshold = 0` of `rotationdetermination`. -/
def rotationThreshold : ℚ := 0

/-- The guard `abs(obj_1_y - obj_2_y) > threshold` of
`rotationdetermination`, on the rows of a 2-D array. -/
def rotationGuard (rows : List PixelObject) : Bool :=
  decide (rotationThreshold <
    |(rows.getD 1 defaultObject).y - (rows.getD 2 defaultObject).y|)

/-- The divisor `obj_2_x - obj_1_x` of the slope in
`rotationdetermination`; the source divides by it with no zero check. -/
def rotationDivisor (rows : List PixelObject) : ℚ :=
  (rows.getD 2 defaultObject).x - (rows.getD 1 defaultObject).x

/-- The slope `(obj_2_y - obj_1_y) / (obj_2_x - obj_1_x)` computed inside
`rotationdetermination`. -/
def rotationRatio (rows : List PixelObject) : ℚ :=
  ((rows.getD 2 defaultObject).y - (rows.getD 1 defaultObject).y) /
    rotationDivisor rows

/-- The angle value `rotationdetermination` computes once rows 1 and 2
have been unpacked successfully: `180/π · np.tan(slope)` when the y-gap
exceeds the zero threshold, else the initial `rotationangle = 0`.  Note
the source applies `np.tan` — the tangent, not the arctangent — to the
slope. -/
noncomputable def rotationangleOf (rows : List PixelObject) : ℝ :=
  if rotationGuard rows then
    (180 / Real.pi) * Real.tan ((rotationRatio rows : ℚ) : ℝ)
  else 0

/-- Embedding of `rotationdetermination(image, object_pixel_locations)`
(source lines 44–54).  The unpacking
`obj_1_x, obj_1_y, r1 = object_pixel_locations[1]` (and row 2 likewise)
raises on a 1-D array (scalar unpacking) and on a 2-D array with fewer
than three rows (row index out of range); the `image` argument is
accepted and ignored exactly as in the source. -/
noncomputable def rotationdetermination {Img : Type} (_image : Img) :
    PixelLocationArray → Except NumpyError ℝ
  | .oneD _ => .error .scalarIndex
  | .twoD rows =>
      if 2 < rows.length then .ok (rotationangleOf rows)
      else .error .scalarIndex

/-- The image-center pseudo-object
`np.append(np.array(image.shape[:2][::-1]) / 2, 0)` built at the start of
`findobjects`.  `shape = (rows, cols)`; reversing gives `(cols, rows)`,
and in Python 2 the integer-array division by 2 is floor division. -/
def centerObject (shape : ℕ × ℕ) : PixelObject :=
  ⟨((shape.2 / 2 : ℕ) : ℚ), ((shape.1 / 2 : ℕ) : ℚ), 0⟩

/-- One `np.vstack((object_pixel_locations, [cx, cy, radius]))` step: a
1-D array stacked with a row becomes a two-row 2-D array, a 2-D array
gains a row. -/
def vstack : PixelLocationArray → PixelObject → PixelLocationArray
  | .oneD c, row => .twoD [c, row]
  | .twoD rows, row => .twoD (rows ++ [row])

/-- Embedding of `findobjects(image, proc)` (source lines 76–89): starts
from the 1-D center pseudo-object array and `np.vstack`s one row per
contour's minimal enclosing circle.  The contour extraction and
enclosing-circle computation are external OpenCV calls, so the embedding
receives their result as the list `circles`; the annotated `circled`
image is a pure drawing side effect and is dropped. -/
def findobjects (shape : ℕ × ℕ) (circles : List PixelObject) : PixelLocationArray :=
  circles.foldl vstack (.oneD (centerObject shape))

/-- Embedding of `calibrate(object_pixel_locations)` (source lines
91–100).  `len(...)` of a 1-D 3-element array is 3, so the zero-contour
array enters the branch and `object_pixel_locations[1][0]` raises
(subscripting a scalar); on a 2-D array `len` counts rows, and with at
most two rows the function falls off the end returning `None`, modelled
as `.ok none`. -/
def calibrate : PixelLocationArray → Except NumpyError (Option (ℚ × ℚ))
  | .oneD _ => .error .scalarIndex
  | .twoD rows =>
      if 2 < rows.length then
        let object_sep := |(rows.getD 1 defaultObject).x - (rows.getD 2 defaultObject).x|
        let markers := rows.drop 1
        let object_dia := (markers.map PixelObject.radius).sum / (markers.length : ℚ) * 2
        .ok (some (calibration_circle_separation / object_sep,
                   calibration_circle_diameter / object_dia))
      else .ok none

/-- The per-axis sign `1 if s == 1 else -1` computed inside `p2c`. -/
def sign_of (s : ℤ) : ℚ := if s = 1 then 1 else -1

/-- Embedding of `p2c(object_pixel_locations, coord_scale)` (source lines
102–114).  `center_pixel_location = object_pixel_locations[0, :2]` raises
on a 1-D array (tuple index into one dimension) and on a rowless 2-D
array.  The machine position (`getcoordinates()`, i.e.
`bot_coordinates`), the camera offset and the origin-location pair are
module-level configuration in the source; they appear here as parameters
so claims can quantify over them.  The source prints each coordinate
pair; the embedding returns the list of pairs in print order. -/
def p2c (object_pixel_locations : PixelLocationArray) (coord_scale : ℚ × ℚ)
    (coord : ℚ × ℚ) (camera_offset : ℚ × ℚ) (origin_location : ℤ × ℤ) :
    Except NumpyError (List (ℚ × ℚ)) :=
  match object_pixel_locations with
  | .oneD _ => .error .scalarIndex
  | .twoD rows =>
      if rows.isEmpty then .error .scalarIndex
      else
        let camera_coordinates := (coord.1 + camera_offset.1, coord.2 + camera_offset.2)
        let center := rows.getD 0 defaultObject
        let sgn := (sign_of origin_location.1, sign_of origin_location.2)
        .ok ((rows.drop 1).map (fun m =>
          (camera_coordinates.1 + sgn.1 * coord_scale.1 * (center.x - m.x),
           camera_coordinates.2 + sgn.2 * coord_scale.2 * (center.y - m.y))))

/-- The detection step `findobjects(inputimage, process(inputimage))`
performed at the top of each round of `calibration`. -/
def detectedAt {Img : Type} (contoursOf : Img → List PixelObject)
    (shape : Img → ℕ × ℕ) (img : Img) : PixelLocationArray :=
  findobjects (shape img) (contoursOf img)

/-- Embedding of the `for i in range(0, iterations)` loop of
`calibration(inputimage)` (source lines 116–129), by the number of rounds
still to run.  Each non-final round detects objects, estimates the angle
with `rotationdetermination` (whose exception, if any, propagates out of
the loop), rotates the *current* working image by that incremental angle
(`inputimage = rotateimage(inputimage, rotation_angle)`), and adds the
angle to the running total; the final round only detects.  Zero rounds
never occur in the source (`iterations` ≥ 1; with 0 the Python body would
never bind `object_pixel_locations`), so the 0 case returns a junk empty
array. -/
noncomputable def calibrationLoop {Img : Type} (contoursOf : Img → List PixelObject)
    (shape : Img → ℕ × ℕ) (rotateimage : Img → ℝ → Img) :
    ℕ → Img → ℝ → Except NumpyError (PixelLocationArray × ℝ × Img)
  | 0, inputimage, total_rotation_angle => .ok (.twoD [], total_rotation_angle, inputimage)
  | 1, inputimage, total_rotation_angle =>
      .ok (detectedAt contoursOf shape inputimage, total_rotation_angle, inputimage)
  | n + 2, inputimage, total_rotation_angle =>
      match rotationdetermination inputimage (detectedAt contoursOf shape inputimage) with
      | .error e => .error e
      | .ok rotation_angle =>
          calibrationLoop contoursOf shape rotateimage (n + 1)
            (rotateimage inputimage rotation_angle)
            (total_rotation_angle + rotation_angle)

/-- Embedding of `calibration(inputimage)` (source lines 116–129): runs
the loop from a zero accumulated angle, then applies `calibrate` to the
last detection set and returns the scale together with the total angle;
exceptions from either stage propagate. -/
noncomputable def calibration {Img : Type} (contoursOf : Img → List PixelObject)
    (shape : Img → ℕ × ℕ) (rotateimage : Img → ℝ → Img)
    (iterations : ℕ) (inputimage : Img) :
    Except NumpyError (Option (ℚ × ℚ) × ℝ) :=
  match calibrationLoop contoursOf shape rotateimage iterations inputimage 0 with
  | .error e => .error e
  | .ok r =>
      match calibrate r.1 with
      | .error e => .error e
      | .ok coord_scale => .ok (coord_scale, r.2.1)

/-- The angle the estimator computes on an image from that image's own
detections (meaningful whenever the detection has at least two
markers). -/
noncomputable def angleAt {Img : Type} (contoursOf : Img → List PixelObject)
    (shape : Img → ℕ × ℕ) (img : Img) : ℝ :=
  rotationangleOf (entries (detectedAt contoursOf shape img))

/-- The sequence of working images the calibration loop actually
produces: each round rotates the previous round's image by the angle
estimated on that same image. -/
noncomputable def incrementalImage {Img : Type} (contoursOf : Img → List PixelObject)
    (shape : Img → ℕ × ℕ) (rotateimage : Img → ℝ → Img) (img : Img) : ℕ → Img
  | 0 => img
  | k + 1 =>
      let prev := incrementalImage contoursOf shape rotateimage img k
      rotateimage prev (angleAt contoursOf shape prev)

/-- Concrete instantiation for the orchestrator claims: the image is a
resampling-pass counter, and every rotation increments it (a genuine
rotation resamples whatever buffer it is given). -/
def rotC3 : ℕ → ℝ → ℕ := fun n _ => n + 1

/-- Concrete contour extraction for the orchestrator claims: two markers,
independent of the image. -/
def contoursC3 : ℕ → List PixelObject := fun _ => [⟨0, 0, 5⟩, ⟨1, 1, 5⟩]

/-- Concrete shape function for the orchestrator claims. -/
def shapeC3 : ℕ → ℕ × ℕ := fun _ => (4, 4)

/-- Markers at (0,0) and (1,1): slope exactly 1, the input on which the
tangent / arctangent discrepancy of `rotationdetermination` is
exhibited. -/
def locsSlopeOne : List PixelObject := [⟨2, 2, 0⟩, ⟨0, 0, 5⟩, ⟨1, 1, 5⟩]

/-- Markers vertically stacked at equal x: the division-by-zero input of
`rotationdetermination`. -/
def locsVertical : List PixelObject := [⟨0, 0, 0⟩, ⟨5, 1, 2⟩, ⟨5, 3, 2⟩]

/-- Degenerate geometry: both markers at the same x-coordinate, so the
pixel separation is zero. -/
def locsDegenerate : List PixelObject := [⟨5, 5, 0⟩, ⟨2, 3, 4⟩, ⟨2, 7, 4⟩]

/-- The worked example of the specification: markers at (100,200) and
(300,200) with radius 50 in a 400×400 image. -/
def locsExample : List PixelObject := [⟨200, 200, 0⟩, ⟨100, 200, 50⟩, ⟨300, 200, 50⟩]

/-- Folding `vstack` from a 2-D array appends the stacked rows. -/
theorem foldl_vstack_twoD (l : List PixelObject) (acc : List PixelObject) :
    l.foldl vstack (.twoD acc) = .twoD (acc ++ l) := by
  induction l generalizing acc with
  | nil => simp
  | cons c cs ih => simp [List.foldl_cons, vstack, ih]

/-- With zero contours, `findobjects` returns the raw 1-D center
array. -/
theorem findobjects_nil (shape : ℕ × ℕ) :
    findobjects shape [] = .oneD (centerObject shape) := rfl

/-- With at least one contour, `findobjects` returns the 2-D array whose
rows are the center pseudo-object followed by the contours' circles in
order. -/
theorem findobjects_cons (shape : ℕ × ℕ) (c : PixelObject) (cs : List PixelObject) :
    findobjects shape (c :: cs) = .twoD (centerObject shape :: c :: cs) := by
  unfold findobjects
  rw [List.foldl_cons, show vstack (.oneD (centerObject shape)) c =
    .twoD [centerObject shape, c] from rfl, foldl_vstack_twoD]
  rfl

/-- In either representation, the object sequence of a `findobjects`
result is the center pseudo-object followed by the contours' circles. -/
theorem entries_findobjects (shape : ℕ × ℕ) (circles : List PixelObject) :
    entries (findobjects shape circles) = centerObject shape :: circles := by
  cases circles with
  | nil => rw [findobjects_nil]; rfl
  | cons c cs => rw [findobjects_cons]; rfl

/-- C5: `calibrate` yields a calibration scale exactly when the
PixelLocationSet has at least three entries (center plus two markers).
With two entries it returns `None`; with only the center entry the
detection array is 1-D and the row indexing raises, so in every
fewer-than-three case no scale is ever produced and none is silently
defaulted. -/
theorem calibrate_scale_iff_three (object_pixel_locations : PixelLocationArray) :
    (∃ coord_scale, calibrate object_pixel_locations = .ok (some coord_scale)) ↔
      3 ≤ (entries object_pixel_locations).length := by
  cases object_pixel_locations with
  | oneD c =>
      simp only [calibrate, entries]
      constructor
      · rintro ⟨s, hs⟩
        exact absurd hs (by simp)
      · intro h
        simp at h
  | twoD rows =>
      simp only [calibrate, entries]
      by_cases h : 2 < rows.length
      · rw [if_pos h]
        constructor
        · intro _
          omega
        · intro _
          exact ⟨_, rfl⟩
      · rw [if_neg h]
        constructor
        · rintro ⟨s, hs⟩
          exact absurd (Except.ok.inj hs) (by simp)
        · intro hlen
          omega

/-- C6: attempting the coordinate transform on the PixelLocationSet the
segmenter produces for zero detections (only the center pseudo-object,
i.e. the still one-dimensional detection array) fails:
`object_pixel_locations[0, :2]` raises on one dimension, so the call
never returns — in particular it never returns an empty but successful
coordinate list.  The failure is an unhandled numpy indexing exception,
the code's de-facto `InsufficientMarkers` signal, surfaced to the
caller. -/
theorem p2c_center_only_fails (shape : ℕ × ℕ)
    (coord_scale coord camera_offset : ℚ × ℚ) (origin_location : ℤ × ℤ) :
    p2c (findobjects shape []) coord_scale coord camera_offset origin_location =
      .error .scalarIndex := rfl

/-- C8 counterexample: on a 5×5 image with no contours the sole entry of
the `findobjects` output has center (2, 2) — the floor of the
half-dimensions, because the Python 2 integer-array division
`np.array(image.shape[:2][::-1]) / 2` floors — which is not the image
midpoint (5/2, 5/2) stated by the claim. -/
theorem findobjects_center_not_midpoint :
    (entries (findobjects (5, 5) []))[0]? = some ⟨2, 2, 0⟩ ∧
      ((2 : ℚ), (2 : ℚ)) ≠ ((5 : ℚ) / 2, (5 : ℚ) / 2) := by
  refine ⟨rfl, fun h => ?_⟩
  have h1 := congrArg Prod.fst h
  norm_num at h1

/-- C8 amended: for every image shape and every contour set, the object
sequence of the `findobjects` output is the center pseudo-object — radius
0, centered at the floor of the image half-dimensions (the image midpoint
rounded down to whole pixels by the Python 2 integer division) — followed
by one entry per detected contour in order; hence it always has at least
one entry, and with zero contours the output is exactly the (1-D) array
holding only the center pseudo-object. -/
theorem findobjects_structure (shape : ℕ × ℕ) (circles : List PixelObject) :
    entries (findobjects shape circles) = centerObject shape :: circles ∧
      1 ≤ (entries (findobjects shape circles)).length ∧
      (circles = [] → findobjects shape circles = .oneD (centerObject shape)) := by
  refine ⟨entries_findobjects shape circles, ?_, ?_⟩
  · rw [entries_findobjects]
    simp
  · intro hnil
    rw [hnil, findobjects_nil]

/-- C8 amended, witness for the zero-contour case on a 5×5 image. -/
theorem findobjects_structure_witness :
    entries (findobjects (5, 5) []) = centerObject (5, 5) :: ([] : List PixelObject) ∧
      1 ≤ (entries (findobjects (5, 5) [])).length ∧
      findobjects (5, 5) [] = .oneD (centerObject (5, 5)) := by
  have h := findobjects_structure (5, 5) []
  exact ⟨h.1, h.2.1, h.2.2 rfl⟩

/-- C9: the coordinate transform is a pure function of the detection
array, the scale, the machine position and the configuration: two
invocations with identical inputs yield identical results. -/
theorem p2c_deterministic (object_pixel_locations : PixelLocationArray)
    (coord_scale coord camera_offset : ℚ × ℚ) (origin_location : ℤ × ℤ) :
    p2c object_pixel_locations coord_scale coord camera_offset origin_location =
      p2c object_pixel_locations coord_scale coord camera_offset origin_location := rfl

/-- C10: whenever the markers at indices 1 and 2 share an x-coordinate
but differ in y, the guard of `rotationdetermination` passes — so the
slope division is executed — while its divisor `obj_2_x - obj_1_x` is
zero: the source divides with no guard on the denominator and is well
defined only under the precondition of distinct x-coordinates. -/
theorem rotationdetermination_divides_by_zero (rows : List PixelObject)
    (h3 : 3 ≤ rows.length)
    (hx : (rows.getD 1 defaultObject).x = (rows.getD 2 defaultObject).x)
    (hy : (rows.getD 1 defaultObject).y ≠ (rows.getD 2 defaultObject).y) :
    rotationGuard rows = true ∧ rotationDivisor rows = 0 := by
  constructor
  · unfold rotationGuard rotationThreshold
    rw [decide_eq_true_eq]
    exact abs_pos.mpr (sub_ne_zero.mpr hy)
  · unfold rotationDivisor
    rw [hx, sub_self]

/-- C10 witness: vertically stacked markers at x = 5. -/
theorem rotationdetermination_divides_by_zero_witness :
    rotationGuard locsVertical = true ∧ rotationDivisor locsVertical = 0 :=
  rotationdetermination_divides_by_zero locsVertical (by decide) (by decide) (by decide)

/-- C2: on every PixelLocationSet with at least three entries (a 2-D
detection array with at least three rows), `calibrate` returns exactly
`scale_x` = physical separation divided by the absolute x-difference of
the markers at indices 1 and 2, and `scale_y` = physical diameter divided
by the pixel diameter, the pixel diameter being the average of
`2 × radius` over all detected markers (every row after the center
pseudo-object). -/
theorem calibrate_formula (rows : List PixelObject) (h : 3 ≤ rows.length) :
    calibrate (.twoD rows) =
      .ok (some (calibration_circle_separation /
          |(rows.getD 1 defaultObject).x - (rows.getD 2 defaultObject).x|,
        calibration_circle_diameter /
          (((rows.drop 1).map (fun m => 2 * m.radius)).sum /
            (((rows.drop 1).length : ℚ))))) := by
  simp only [calibrate]
  rw [if_pos (by omega)]
  have hsum : ((rows.drop 1).map (fun m => 2 * m.radius)).sum =
      2 * ((rows.drop 1).map PixelObject.radius).sum := by
    rw [List.sum_map_mul_left]
  rw [hsum]
  have hdia : ((rows.drop 1).map PixelObject.radius).sum /
        (((rows.drop 1).length : ℚ)) * 2 =
      2 * ((rows.drop 1).map PixelObject.radius).sum /
        (((rows.drop 1).length : ℚ)) := by
    ring
  rw [hdia]

/-- C2 witness: the worked example of the specification, 400×400 image
with markers (100,200) and (300,200) of radius 50. -/
theorem calibrate_formula_witness :
    3 ≤ locsExample.length ∧
      calibrate (.twoD locsExample) =
        .ok (some (calibration_circle_separation /
            |(locsExample.getD 1 defaultObject).x - (locsExample.getD 2 defaultObject).x|,
          calibration_circle_diameter /
            (((locsExample.drop 1).map (fun m => 2 * m.radius)).sum /
              (((locsExample.drop 1).length : ℚ))))) :=
  ⟨by decide, calibrate_formula locsExample (by decide)⟩

/-- C7 counterexample: on `locsDegenerate` the marker pixel separation
`|x1 - x2|` is zero, yet `calibrate` does not fail: it still returns a
scale (whose x-component is produced by dividing by zero — `inf` in the
Python float semantics), contradicting the claim that it fails
explicitly. -/
theorem calibrate_degenerate_still_returns :
    |(locsDegenerate.getD 1 defaultObject).x -
        (locsDegenerate.getD 2 defaultObject).x| = 0 ∧
      (calibrate (.twoD locsDegenerate)).map Option.isSome = .ok true := by
  refine ⟨?_, rfl⟩
  show |(2 : ℚ) - 2| = 0
  norm_num

/-- C7 amended: `calibrate` performs no degenerate-geometry check: for
any 2-D detection array of at least three rows it returns a scale even
when the marker pixel separation or pixel diameter is zero, the undefined
component being produced by division by zero (infinity or NaN in the
Python float semantics) rather than an explicit failure. -/
theorem calibrate_no_degeneracy_check (rows : List PixelObject)
    (h : 3 ≤ rows.length)
    (hdeg : |(rows.getD 1 defaultObject).x - (rows.getD 2 defaultObject).x| = 0 ∨
      ((rows.drop 1).map PixelObject.radius).sum /
        (((rows.drop 1).length : ℚ)) * 2 = 0) :
    (calibrate (.twoD rows)).map Option.isSome = .ok true := by
  simp only [calibrate]
  rw [if_pos (by omega)]
  rfl

/-- C7 amended, witness at the zero-separation set. -/
theorem calibrate_no_degeneracy_check_witness :
    3 ≤ locsDegenerate.length ∧
      (calibrate (.twoD locsDegenerate)).map Option.isSome = .ok true :=
  ⟨by decide, calibrate_no_degeneracy_check locsDegenerate (by decide)
    (Or.inl (by show |(2 : ℚ) - 2| = 0; norm_num))⟩

/-- C4: on every 2-D detection array with at least one row, `p2c` outputs
one coordinate per marker beyond the center pseudo-object, in input
order, and the i-th output equals `(machinePosition + cameraOffset) +
signedAxis * scale * (centerPixel - markerPixel)` per axis, the sign of
an axis being +1 when the origin-location entry for that axis is 1 and -1
otherwise. -/
theorem p2c_formula (rows : List PixelObject)
    (coord_scale coord camera_offset : ℚ × ℚ) (origin_location : ℤ × ℤ)
    (hne : rows ≠ []) :
    (p2c (.twoD rows) coord_scale coord camera_offset origin_location).map
        List.length = .ok (rows.length - 1) ∧
      ∀ i : ℕ, i + 1 < rows.length →
        (p2c (.twoD rows) coord_scale coord camera_offset origin_location).map
            (fun moc => moc[i]?) =
          .ok (some ((coord.1 + camera_offset.1) +
              sign_of origin_location.1 * coord_scale.1 *
                ((rows.getD 0 defaultObject).x - (rows.getD (i + 1) defaultObject).x),
            (coord.2 + camera_offset.2) +
              sign_of origin_location.2 * coord_scale.2 *
                ((rows.getD 0 defaultObject).y - (rows.getD (i + 1) defaultObject).y))) := by
  have hok : p2c (.twoD rows) coord_scale coord camera_offset origin_location =
      .ok ((rows.drop 1).map (fun m =>
        ((coord.1 + camera_offset.1) + sign_of origin_location.1 * coord_scale.1 *
            ((rows.getD 0 defaultObject).x - m.x),
         (coord.2 + camera_offset.2) + sign_of origin_location.2 * coord_scale.2 *
            ((rows.getD 0 defaultObject).y - m.y)))) := by
    simp only [p2c]
    rw [if_neg (by simpa using hne)]
  constructor
  · rw [hok, Except.map]
    simp
  · intro i hi
    rw [hok, Except.map]
    rw [List.getElem?_map, List.getElem?_drop,
      List.getElem?_eq_getElem (by omega : 1 + i < rows.length)]
    have hgd : rows.getD (i + 1) defaultObject = rows[1 + i] := by
      rw [List.getD_eq_getElem?_getD,
        List.getElem?_eq_getElem (by omega : i + 1 < rows.length)]
      simp only [Option.getD_some]
      congr 1
      omega
    rw [hgd]
    rfl

/-- C4 witness: the specification's worked example with the source's
configuration values, first marker. -/
theorem p2c_formula_witness :
    (p2c (.twoD locsExample) (5/2, 153/100) bot_coordinates camera_offset_coordinates
        image_bot_origin_location).map (fun moc => moc[0]?) =
      .ok (some ((bot_coordinates.1 + camera_offset_coordinates.1) +
          sign_of image_bot_origin_location.1 * (5/2 : ℚ) *
            ((locsExample.getD 0 defaultObject).x - (locsExample.getD 1 defaultObject).x),
        (bot_coordinates.2 + camera_offset_coordinates.2) +
          sign_of image_bot_origin_location.2 * (153/100 : ℚ) *
            ((locsExample.getD 0 defaultObject).y - (locsExample.getD 1 defaultObject).y))) :=
  (p2c_formula locsExample (5/2, 153/100) bot_coordinates camera_offset_coordinates
    image_bot_origin_location (by decide)).2 0 (by decide)

/-- C1, code bug: on markers (0,0) and (1,1) — slope exactly 1 — the
source's `rotationdetermination` returns `180/π · np.tan(1)` (about 89.2
degrees), because it applies the tangent to the slope, whereas the angle
of rotation the claim and the function's own variable naming
(`rotation_angle_radians`) describe is the arctangent of the slope,
`180/π · arctan(1) = 45` degrees; the two values provably differ. -/
theorem rotationdetermination_uses_tan_not_arctan :
    rotationdetermination () (.twoD locsSlopeOne) =
        .ok (180 / Real.pi * Real.tan 1) ∧
      rotationdetermination () (.twoD locsSlopeOne) ≠
        .ok (180 / Real.pi * Real.arctan 1) := by
  have hguard : rotationGuard locsSlopeOne = true := by
    unfold rotationGuard rotationThreshold
    rw [decide_eq_true_eq]
    norm_num [locsSlopeOne, defaultObject]
  have hratio : rotationRatio locsSlopeOne = 1 := by
    norm_num [rotationRatio, rotationDivisor, locsSlopeOne, defaultObject]
  have hangle : rotationangleOf locsSlopeOne = 180 / Real.pi * Real.tan 1 := by
    unfold rotationangleOf
    rw [if_pos hguard, hratio]
    norm_num
  have heval : rotationdetermination () (.twoD locsSlopeOne) =
      .ok (180 / Real.pi * Real.tan 1) := by
    simp only [rotationdetermination]
    rw [if_pos (by decide), hangle]
  refine ⟨heval, ?_⟩
  rw [heval]
  intro h
  have hv := Except.ok.inj h
  have hpi : (0 : ℝ) < 180 / Real.pi := by positivity
  have harctan : Real.arctan 1 < 1 := by
    rw [Real.arctan_one]
    nlinarith [Real.pi_lt_four]
  have htan : (1 : ℝ) < Real.tan 1 := by
    refine Real.lt_tan one_pos ?_
    nlinarith [Real.pi_gt_three]
  have hlt : 180 / Real.pi * Real.arctan 1 < 180 / Real.pi * Real.tan 1 :=
    mul_lt_mul_of_pos_left (harctan.trans htan) hpi
  exact absurd hv (ne_of_gt hlt)

/-- When every image's detection yields at least two contours, the
estimator applied to an image's own detection succeeds with the angle
value `angleAt`. -/
theorem rotationdetermination_detected_ok {Img : Type}
    (contoursOf : Img → List PixelObject) (shape : Img → ℕ × ℕ) (img : Img)
    (hdet : 2 ≤ (contoursOf img).length) :
    rotationdetermination img (detectedAt contoursOf shape img) =
      .ok (angleAt contoursOf shape img) := by
  unfold angleAt detectedAt
  obtain ⟨c, cs, hcons⟩ : ∃ c cs, contoursOf img = c :: cs := by
    cases hc : contoursOf img with
    | nil => rw [hc] at hdet; simp at hdet
    | cons c cs => exact ⟨c, cs, rfl⟩
  rw [hcons, findobjects_cons]
  have hlen : 2 < (centerObject (shape img) :: c :: cs).length := by
    have : 1 ≤ cs.length := by
      have := hdet
      rw [hcons] at this
      simpa using this
    simp only [List.length_cons]
    omega
  simp only [rotationdetermination]
  rw [if_pos hlen]
  rfl

/-- An image produced by rotating once more at the end of an incremental
chain is the successor link of the same chain. -/
theorem incrementalImage_shift {Img : Type} (contoursOf : Img → List PixelObject)
    (shape : Img → ℕ × ℕ) (rotateimage : Img → ℝ → Img) (img : Img) (k : ℕ) :
    incrementalImage contoursOf shape rotateimage
        (rotateimage img (angleAt contoursOf shape img)) k =
      incrementalImage contoursOf shape rotateimage img (k + 1) := by
  induction k with
  | zero => rfl
  | succ k ih =>
      have hstep : incrementalImage contoursOf shape rotateimage img (k + 1 + 1) =
          rotateimage (incrementalImage contoursOf shape rotateimage img (k + 1))
            (angleAt contoursOf shape
              (incrementalImage contoursOf shape rotateimage img (k + 1))) := rfl
      have hstep' : incrementalImage contoursOf shape rotateimage
            (rotateimage img (angleAt contoursOf shape img)) (k + 1) =
          rotateimage (incrementalImage contoursOf shape rotateimage
              (rotateimage img (angleAt contoursOf shape img)) k)
            (angleAt contoursOf shape (incrementalImage contoursOf shape rotateimage
              (rotateimage img (angleAt contoursOf shape img)) k)) := rfl
      rw [hstep', hstep, ih]

/-- C3 amended: the calibration loop is incremental, not
baseline-re-rotating.  Provided every round's detection finds at least
two markers (so the estimator never raises), running `n + 1` rounds from
any working image succeeds with: final detections taken on the n-fold
incrementally rotated image, a total angle that is the starting total
plus the sum of the angles estimated on each successive working image,
and a final working image obtained by repeatedly rotating the *previous
round's already-rotated image* by only that round's incremental angle
(`inputimage = rotateimage(inputimage, rotation_angle)`), never by
re-rotating the round-0 baseline with the accumulated total. -/
theorem calibrationLoop_incremental {Img : Type} (contoursOf : Img → List PixelObject)
    (shape : Img → ℕ × ℕ) (rotateimage : Img → ℝ → Img)
    (hdet : ∀ img : Img, 2 ≤ (contoursOf img).length) (n : ℕ) (inputimage : Img)
    (total_rotation_angle : ℝ) :
    calibrationLoop contoursOf shape rotateimage (n + 1) inputimage total_rotation_angle =
      .ok (detectedAt contoursOf shape
          (incrementalImage contoursOf shape rotateimage inputimage n),
        total_rotation_angle + (Finset.range n).sum
          (fun k => angleAt contoursOf shape
            (incrementalImage contoursOf shape rotateimage inputimage k)),
        incrementalImage contoursOf shape rotateimage inputimage n) := by
  induction n generalizing inputimage total_rotation_angle with
  | zero =>
      simp only [calibrationLoop, incrementalImage, Finset.range_zero, Finset.sum_empty,
        add_zero]
  | succ n ih =>
      rw [show n + 1 + 1 = n + 2 from rfl, calibrationLoop,
        rotationdetermination_detected_ok contoursOf shape inputimage (hdet inputimage)]
      have hred : (match (Except.ok (angleAt contoursOf shape inputimage) :
            Except NumpyError ℝ) with
          | .error e => (.error e : Except NumpyError (PixelLocationArray × ℝ × Img))
          | .ok rotation_angle =>
              calibrationLoop contoursOf shape rotateimage (n + 1)
                (rotateimage inputimage rotation_angle)
                (total_rotation_angle + rotation_angle)) =
          calibrationLoop contoursOf shape rotateimage (n + 1)
            (rotateimage inputimage (angleAt contoursOf shape inputimage))
            (total_rotation_angle + angleAt contoursOf shape inputimage) := rfl
      rw [hred, ih]
      simp only [incrementalImage_shift]
      rw [Except.ok.injEq, Prod.mk.injEq, Prod.mk.injEq]
      refine ⟨rfl, ?_, rfl⟩
      rw [Finset.sum_range_succ']
      rw [show incrementalImage contoursOf shape rotateimage inputimage 0 = inputimage from rfl]
      ring

/-- C3 amended, witness: the concrete counter instantiation, three
rounds from counter 0 and total 0. -/
theorem calibrationLoop_incremental_witness :
    calibrationLoop contoursC3 shapeC3 rotC3 3 0 0 =
      .ok (detectedAt contoursC3 shapeC3 (incrementalImage contoursC3 shapeC3 rotC3 0 2),
        0 + (Finset.range 2).sum
          (fun k => angleAt contoursC3 shapeC3 (incrementalImage contoursC3 shapeC3 rotC3 0 k)),
        incrementalImage contoursC3 shapeC3 rotC3 0 2) :=
  calibrationLoop_incremental contoursC3 shapeC3 rotC3
    (fun _img : ℕ => Nat.le.refl) 2 0 0

/-- C3 counterexample: instantiate the image type by a resampling-pass
counter (`rotC3` increments it on every rotation) and run three rounds.
The loop's final working image has undergone two successive rotations
(counter 2), whereas an image obtained by applying the rotation corrector
to the original unrotated image with the accumulated total — as the claim
describes — would have undergone exactly one (counter 1).  The loop
therefore does not re-rotate from the unrotated baseline. -/
theorem calibrationLoop_not_from_baseline :
    (calibrationLoop contoursC3 shapeC3 rotC3 3 0 0).map (fun r => r.2.2) ≠
      (calibrationLoop contoursC3 shapeC3 rotC3 3 0 0).map (fun r => rotC3 0 r.2.1) := by
  intro h
  have e1 : (calibrationLoop contoursC3 shapeC3 rotC3 3 0 0).map (fun r => r.2.2) =
      .ok 2 := rfl
  have e2 : (calibrationLoop contoursC3 shapeC3 rotC3 3 0 0).map (fun r => rotC3 0 r.2.1) =
      .ok 1 := rfl
  rw [e1, e2] at h
  exact absurd (Except.ok.inj h) (by decide)

end PlantDetection
